import Mathlib

/-!
Verification of the match lifecycle and move-arbitration engine of the
farcaster-chess-game repository (`backend/server.js`).

The backend keeps four in-memory maps (`activeGames`, `pendingChallenges`,
`playerGames`, `playerConnections`) and handles the WebSocket commands
`create_game`, `join_challenge`, `make_move`, `resign`, `reset_game`, plus the
connection `close` event and the asynchronous `triggerAiMove`.

The chess rules engine (chess.js) and the AI move generator (chess-ai) are
external collaborators; they are modelled as an oracle over FEN strings
(`ChessOracle`), since a chess.js instance is determined by its FEN and the
server only ever consumes `turn()`, `move()`, `fen()`, `reset()`,
`isCheck()`, `isCheckmate()`, `isDraw()` and `isGameOver()`.  The Supabase
persistence layer (`services/database.js`) always resolves to a record
`{ error }`; each database call's outcome is passed to the handlers as an
`Option String` parameter (`none` = success) and the calls issued are
collected in a `DbCall` list.  `Date.now` and `Math.random` are likewise
passed in as parameters.
-/

namespace FarcasterChess

/-- Association-list lookup, modelling `Map.prototype.get`. -/
def alookup {α β : Type} [DecidableEq α] : List (α × β) → α → Option β
  | [], _ => none
  | (k, v) :: rest, key => if k = key then some v else alookup rest key

/-- Association-list update, modelling `Map.prototype.set`. -/
def aset {α β : Type} [DecidableEq α] : List (α × β) → α → β → List (α × β)
  | [], key, val => [(key, val)]
  | (k, v) :: rest, key, val =>
    if k = key then (key, val) :: rest else (k, v) :: aset rest key val

/-- Association-list removal, modelling `Map.prototype.delete`. -/
def aerase {α β : Type} [DecidableEq α] : List (α × β) → α → List (α × β)
  | [], _ => []
  | (k, v) :: rest, key => if k = key then rest else (k, v) :: aerase rest key

/-- JavaScript truthiness of an optional string field
(`undefined` and the empty string are falsy). -/
def truthyS : Option String → Bool
  | none => false
  | some s => !(s = "")

/-- A player identifier: a numeric Farcaster id assigned at connection time,
or the sentinel string `'ai'` stored in the player-fid fields of AI games. -/
inductive Pid where
  | human (fid : Nat)
  | ai
  deriving DecidableEq, Repr

/-- One WebSocket connection: the `ws` object carries its `playerId`. -/
structure Conn where
  connId : Nat
  playerId : Nat
  deriving DecidableEq, Repr

/-- The in-memory game object built by `handleCreateGame` /
`handleJoinChallenge`.  `game` is the chess.js instance (identified by its
FEN); `players` is referenced by `resignGameHandler` but never assigned
anywhere in the program, hence it is always `none` (JS `undefined`). -/
structure Game where
  id : String
  fen : String
  status : String
  white_player_fid : Option Pid
  black_player_fid : Option Pid
  mode : Option String
  timeControls : Option String
  difficulty : Option String
  created_at : Nat
  updated_at : Nat
  players : Option (List Nat) := none
  game : Option String := none
  deriving DecidableEq, Repr

/-- A pending challenge created by `handleCreateGame` for
`opponentType === 'specific'`. -/
structure Challenge where
  id : String
  creator_fid : Nat
  status : String
  mode : Option String
  timeControls : Option String
  join_permission : String
  created_at : Nat
  deriving DecidableEq, Repr

/-- Outbound WebSocket notifications (`ws.send` payloads). -/
inductive Msg where
  | error (message : String)
  | gameStarted (gameId : String) (color : String)
  | challengeCreated (gameId : String) (joinLink : String)
  | moveMade (gameId : String) (fromSq : String) (toSq : String)
      (promotion : Option String) (fen : String) (turn : String)
      (isCheck : Bool) (isCheckmate : Bool) (isDraw : Bool)
  | gameReset (gameId : String) (fen : String)
  | gameOver (gameId : String) (result : String) (winner : Option String)
  | gameOverResign (result : String) (reason : String)
  | opponentDisconnected (gameId : String)
  deriving DecidableEq, Repr

/-- Calls issued to the persistence gateway (`services/database.js`). -/
inductive DbCall where
  | createGameCall (g : Game)
  | recordMoveCall (gameId : String) (fromSq : String) (toSq : String)
      (playerFid : String) (promotion : Option String)
  | updateGameStateCall (gameId : String) (fen : String) (status : String)
  deriving DecidableEq, Repr

/-- The server's mutable in-memory state: the four process-wide maps. -/
structure ServerState where
  activeGames : List (String × Game)
  pendingChallenges : List (String × Challenge)
  playerGames : List (Nat × List String)
  playerConnections : List (Nat × List Nat)
  deriving DecidableEq, Repr

/-- Result of running one handler: the new state, the messages sent
(tagged with the receiving connection id), the database calls issued,
whether an AI move was scheduled via `setImmediate`, and whether the
handler threw (an unhandled promise rejection, aborting the handler at
the throw point). -/
structure HResult where
  state : ServerState
  sent : List (Nat × Msg)
  db : List DbCall
  scheduledAi : Bool := false
  crashed : Bool := false
  deriving DecidableEq, Repr

/-- The rules-engine oracle over FEN strings (chess.js).  `moveFn` returns
the FEN after a legal move and `none` for an illegal one (`Chess.move`
returning `null`). -/
structure ChessOracle where
  moveFn : String → String → String → Option String → Option String
  turnFn : String → String
  isCheckFn : String → Bool
  isCheckmateFn : String → Bool
  isDrawFn : String → Bool
  isGameOverFn : String → Bool

/-- The hard-coded initial position of `server.js`, which is also
chess.js's `DEFAULT_POSITION` restored by `Chess.reset()`. -/
def initialFEN : String :=
  "rnbqkbnr/pppppppp/8/8/8/8/PPPPPPPP/RNBQKBNR w KQkq - 0 1"

/-- Models `playerConnections.get(fid)`: the connection set registered for a
player-fid field value (the map is keyed by numeric ids only, so the
sentinel `'ai'` and `null` have no entry). -/
def connsOf (st : ServerState) (p : Option Pid) : List Nat :=
  match p with
  | some (Pid.human f) => (alookup st.playerConnections f).getD []
  | _ => []

/-- Models `playerGames.get(p).add(gid)` with creation of the set on first use. -/
def addPlayerGame (pg : List (Nat × List String)) (p : Nat) (gid : String) :
    List (Nat × List String) :=
  match alookup pg p with
  | none => aset pg p [gid]
  | some l => if gid ∈ l then aset pg p l else aset pg p (l ++ [gid])

/-- Models `notifyGameStarted` (server.js:234-260): send `game_started` to every
connection of the white player and, unless the black player is `'ai'`, of
the black player, each with their own color. -/
def notifyGameStarted (st : ServerState) (g : Game) : List (Nat × Msg) :=
  let w := (connsOf st g.white_player_fid).map
    (fun c => (c, Msg.gameStarted g.id "white"))
  let b := if g.black_player_fid = some Pid.ai then []
    else (connsOf st g.black_player_fid).map
      (fun c => (c, Msg.gameStarted g.id "black"))
  w ++ b

/-- Models `broadcastMove` (server.js:512-543): send `move_made` to every
connection of each non-AI player; the payload carries `game.fen` and the
flags of the live chess.js instance `eng` (= `game.game`). -/
def broadcastMove (C : ChessOracle) (st : ServerState) (g : Game)
    (eng : String) (fromSq toSq : String) (promotion : Option String) :
    List (Nat × Msg) :=
  let m := Msg.moveMade g.id fromSq toSq promotion g.fen (C.turnFn eng)
    (C.isCheckFn eng) (C.isCheckmateFn eng) (C.isDrawFn eng)
  let w := if g.white_player_fid = some Pid.ai then []
    else (connsOf st g.white_player_fid).map (fun c => (c, m))
  let b := if g.black_player_fid = some Pid.ai then []
    else (connsOf st g.black_player_fid).map (fun c => (c, m))
  w ++ b

/-- Models `handleGameOver` (server.js:546-574): compute result and winner from the
live chess.js instance `eng`, persist `(game.fen, result)`, send `game_over`
to both non-AI players, and delete the match from `activeGames`. -/
def handleGameOver (C : ChessOracle) (st : ServerState) (g : Game)
    (eng : String) : HResult :=
  let result := if C.isCheckmateFn eng then "checkmate"
    else if C.isDrawFn eng then "draw" else "unknown"
  let winner := if result = "checkmate" then
      some (if C.turnFn eng = "b" then "white" else "black")
    else none
  let m := Msg.gameOver g.id result winner
  let w := if g.white_player_fid = some Pid.ai then []
    else (connsOf st g.white_player_fid).map (fun c => (c, m))
  let b := if g.black_player_fid = some Pid.ai then []
    else (connsOf st g.black_player_fid).map (fun c => (c, m))
  { state := { st with activeGames := aerase st.activeGames g.id },
    sent := w ++ b,
    db := [DbCall.updateGameStateCall g.id g.fen result] }

/-- The fields of an inbound `create_game` message. -/
structure CreateGameData where
  mode : Option String
  opponentType : Option String
  timeControls : Option String
  preferredColor : Option String
  difficulty : Option String
  deriving DecidableEq, Repr

/-- Models `handleCreateGame` (server.js:132-231).  `newId` is the generated
`uuidv4()`, `now` the current time, `dbCreate` the outcome of the
`createGame` database call. -/
def handleCreateGame (st : ServerState) (ws : Conn) (d : CreateGameData)
    (dbCreate : Option String) (now : Nat) (newId : String) : HResult :=
  let creatorId := ws.playerId
  let gameId := newId
  let base : Game :=
    { id := gameId, fen := initialFEN, status := "waiting",
      white_player_fid := none, black_player_fid := none,
      mode := d.mode, timeControls := d.timeControls,
      difficulty := if d.opponentType = some "ai" then
          some ((if truthyS d.difficulty then d.difficulty else none).getD "medium")
        else none,
      created_at := now, updated_at := now }
  if d.opponentType = some "ai" then
    let pc := if truthyS d.preferredColor then d.preferredColor.getD "" else "white"
    let g : Game :=
      { base with
        status := "in_progress", game := some initialFEN,
        white_player_fid := if pc = "black" then some Pid.ai
          else some (Pid.human creatorId),
        black_player_fid := if pc = "black" then some (Pid.human creatorId)
          else some Pid.ai }
    match dbCreate with
    | some _ =>
      { state := st,
        sent := [(ws.connId, Msg.error "Failed to create AI game in database.")],
        db := [DbCall.createGameCall g] }
    | none =>
      let st1 := { st with activeGames := aset st.activeGames gameId g }
      let st2 := { st1 with playerGames := addPlayerGame st1.playerGames creatorId gameId }
      { state := st2, sent := notifyGameStarted st1 g,
        db := [DbCall.createGameCall g] }
  else if d.opponentType = some "specific" then
    let ch : Challenge :=
      { id := gameId, creator_fid := creatorId, status := "challenge_pending",
        mode := d.mode, timeControls := d.timeControls,
        join_permission := "any_fid", created_at := now }
    let st1 := { st with
      pendingChallenges := aset st.pendingChallenges gameId ch,
      playerGames := addPlayerGame st.playerGames creatorId gameId }
    let joinLink := "http://localhost:3002/join/" ++ gameId
    { state := st1,
      sent := [(ws.connId, Msg.challengeCreated ch.id joinLink)], db := [] }
  else
    { state := st,
      sent := [(ws.connId,
        Msg.error ("Opponent type '" ++ d.opponentType.getD "" ++ "' is not supported."))],
      db := [] }

/-- The `create_game` arm of `handleMessage` (server.js:99-113): the
field-presence check and the `['ai', 'specific'].includes` whitelist,
followed by `handleCreateGame`. -/
def dispatchCreateGame (st : ServerState) (ws : Conn) (d : CreateGameData)
    (dbCreate : Option String) (now : Nat) (newId : String) : HResult :=
  if !(truthyS d.mode) || !(truthyS d.opponentType) then
    { state := st,
      sent := [(ws.connId,
        Msg.error "Missing required parameters: mode and opponentType")],
      db := [] }
  else if !(d.opponentType = some "ai" || d.opponentType = some "specific") then
    { state := st,
      sent := [(ws.connId,
        Msg.error ("Invalid opponent type: " ++ d.opponentType.getD ""))],
      db := [] }
  else handleCreateGame st ws d dbCreate now newId

/-- The challenge-expiry `setTimeout` callback (server.js:215-221). -/
def challengeExpire (st : ServerState) (gameId : String) : ServerState :=
  match alookup st.pendingChallenges gameId with
  | none => st
  | some _ => { st with pendingChallenges := aerase st.pendingChallenges gameId }

/-- Models `handleJoinChallenge` (server.js:262-321).  `coin` is
`Math.random() < 0.5` (true puts the creator on white), `dbCreate` the
outcome of the `createGame` database call. -/
def handleJoinChallenge (st : ServerState) (ws : Conn)
    (gameIdField : Option String) (dbCreate : Option String) (coin : Bool)
    (now : Nat) : HResult :=
  let joinerId := ws.playerId
  if !(truthyS gameIdField) then
    { state := st,
      sent := [(ws.connId, Msg.error "Missing gameId for join challenge.")],
      db := [] }
  else
    let gid := gameIdField.getD ""
    match alookup st.pendingChallenges gid with
    | none =>
      { state := st,
        sent := [(ws.connId, Msg.error "Challenge not found or expired.")],
        db := [] }
    | some ch =>
      if ch.creator_fid = joinerId then
        { state := st,
          sent := [(ws.connId, Msg.error "Cannot join your own challenge.")],
          db := [] }
      else
        let g0 : Game :=
          { id := ch.id, fen := initialFEN, status := "in_progress",
            white_player_fid := if coin then some (Pid.human ch.creator_fid)
              else some (Pid.human joinerId),
            black_player_fid := if coin then some (Pid.human joinerId)
              else some (Pid.human ch.creator_fid),
            mode := ch.mode, timeControls := ch.timeControls,
            difficulty := none, created_at := ch.created_at,
            updated_at := now }
        match dbCreate with
        | some _ =>
          { state := st,
            sent := [(ws.connId, Msg.error "Failed to start game in database.")],
            db := [DbCall.createGameCall g0] }
        | none =>
          let g : Game := { g0 with game := some initialFEN }
          let st1 := { st with
            activeGames := aset st.activeGames g.id g,
            playerGames := addPlayerGame st.playerGames joinerId g.id,
            pendingChallenges := aerase st.pendingChallenges ch.id }
          { state := st1, sent := notifyGameStarted st1 g,
            db := [DbCall.createGameCall g0] }

/-- The fields of an inbound `make_move` message. -/
structure MoveData where
  gameId : String
  fromSq : String
  toSq : String
  promotion : Option String
  deriving DecidableEq, Repr

/-- Models `makeMoveHandler` (server.js:323-429).  `dbRecord` / `dbState` are the
outcomes of the `recordMove` / `updateGameState` database calls. -/
def makeMoveHandler (C : ChessOracle) (st : ServerState) (ws : Conn)
    (d : MoveData) (dbRecord dbState : Option String) (now : Nat) : HResult :=
  match alookup st.activeGames d.gameId with
  | none =>
    { state := st,
      sent := [(ws.connId, Msg.error "Game not found or not initialized")],
      db := [] }
  | some g =>
    match g.game with
    | none =>
      { state := st,
        sent := [(ws.connId, Msg.error "Game not found or not initialized")],
        db := [] }
    | some eng =>
      let humanColor := if g.white_player_fid = some (Pid.human ws.playerId)
        then "w" else "b"
      if C.turnFn eng ≠ humanColor then
        { state := st, sent := [(ws.connId, Msg.error "Not your turn")],
          db := [] }
      else
        let promo := if truthyS d.promotion then d.promotion else none
        match C.moveFn g.fen d.fromSq d.toSq promo with
        | none =>
          { state := st, sent := [(ws.connId, Msg.error "Invalid move")],
            db := [] }
        | some _ =>
          let eng' := (C.moveFn eng d.fromSq d.toSq promo).getD eng
          let g' := { g with game := some eng', fen := eng', updated_at := now }
          let st1 := { st with activeGames := aset st.activeGames d.gameId g' }
          let dbRec := DbCall.recordMoveCall g.id d.fromSq d.toSq
            (toString ws.playerId) promo
          match dbRecord with
          | some _ =>
            { state := st1,
              sent := [(ws.connId, Msg.error "Failed to record move")],
              db := [dbRec] }
          | none =>
            let status := if C.isCheckmateFn eng' then "checkmate"
              else if C.isDrawFn eng' then "draw" else "in_progress"
            let dbUpd := DbCall.updateGameStateCall g.id eng' status
            let bc := broadcastMove C st1 g' eng' d.fromSq d.toSq d.promotion
            if C.isGameOverFn eng' then
              let go := handleGameOver C st1 g' eng'
              { state := go.state, sent := bc ++ go.sent,
                db := [dbRec, dbUpd] ++ go.db }
            else
              let isAiGame := g.white_player_fid = some Pid.ai ∨
                g.black_player_fid = some Pid.ai
              let aiColor := if g.white_player_fid = some Pid.ai then "w" else "b"
              let isAiTurn := isAiGame ∧ C.turnFn eng' = aiColor
              { state := st1, sent := bc, db := [dbRec, dbUpd],
                scheduledAi := decide isAiTurn }

/-- Models `resignGameHandler` (server.js:431-459).  The game objects built by this
program never carry a `players` field, so `game.players.find(...)` throws a
TypeError; the handler aborts there (`crashed := true`) with nothing sent
and no state mutated.  The remaining branches model the code as written for
a hypothetical object that did carry the field (and then `game.game.fen()`,
which can throw in turn). -/
def resignGameHandler (st : ServerState) (ws : Conn) (gameId : String) :
    HResult :=
  match alookup st.activeGames gameId with
  | none =>
    { state := st, sent := [(ws.connId, Msg.error "Game not found")], db := [] }
  | some g =>
    match g.players with
    | none => { state := st, sent := [], db := [], crashed := true }
    | some ps =>
      let winMsgs := match ps.find? (fun c => !(c = ws.connId)) with
        | some c => [(c, Msg.gameOverResign "win" "opponent_resigned")]
        | none => []
      let lossMsgs := winMsgs ++ [(ws.connId, Msg.gameOverResign "loss" "resigned")]
      match g.game with
      | none => { state := st, sent := lossMsgs, db := [], crashed := true }
      | some eng =>
        { state := { st with activeGames := aerase st.activeGames gameId },
          sent := lossMsgs,
          db := [DbCall.updateGameStateCall gameId eng "resigned"] }

/-- Models `resetGameHandler` (server.js:461-509): `game.game.reset()` restores the
chess.js default position; the cached FEN, timestamp and status are
refreshed, the state persisted, and `game_reset` sent to both non-AI
players (a `dbState` failure is only logged). -/
def resetGameHandler (st : ServerState) (ws : Conn) (gameId : String)
    (dbState : Option String) (now : Nat) : HResult :=
  match alookup st.activeGames gameId with
  | none =>
    { state := st,
      sent := [(ws.connId, Msg.error "Game not found or not initialized")],
      db := [] }
  | some g =>
    match g.game with
    | none =>
      { state := st,
        sent := [(ws.connId, Msg.error "Game not found or not initialized")],
        db := [] }
    | some _ =>
      let g' := { g with
        game := some initialFEN, fen := initialFEN,
        updated_at := now, status := "in_progress" }
      let st1 := { st with activeGames := aset st.activeGames gameId g' }
      let m := Msg.gameReset g.id g'.fen
      let w := if g.white_player_fid = some Pid.ai then []
        else (connsOf st1 g.white_player_fid).map (fun c => (c, m))
      let b := if g.black_player_fid = some Pid.ai then []
        else (connsOf st1 g.black_player_fid).map (fun c => (c, m))
      { state := st1, sent := w ++ b,
        db := [DbCall.updateGameStateCall g.id g'.fen "in_progress"] }

/-- The fields of the object returned by the AI move generator
(`chess-ai`'s `play`), an external black box. -/
structure AiMoveData where
  fromSq : Option String
  toSq : Option String
  promotion : Option String
  deriving DecidableEq, Repr

/-- Models `triggerAiMove` (server.js:577-640).  `aiMove` is the generator's
output.  The JS function receives the game object itself; here it is looked
up by id — a game evicted from `activeGames` before the scheduled task runs
leaves the store unaffected, which the `none` arm mirrors.  Both database
calls are awaited but their outcomes are not checked. -/
def triggerAiMove (C : ChessOracle) (st : ServerState) (gameId : String)
    (aiMove : Option AiMoveData) (now : Nat) : HResult :=
  match alookup st.activeGames gameId with
  | none => { state := st, sent := [], db := [] }
  | some g =>
    match g.game with
    | none => { state := st, sent := [], db := [] }
    | some eng =>
      let aiColor := if g.white_player_fid = some Pid.ai then "w" else "b"
      if C.turnFn eng ≠ aiColor then { state := st, sent := [], db := [] }
      else
        match aiMove with
        | none => { state := st, sent := [], db := [] }
        | some mv =>
          if !(truthyS mv.fromSq) || !(truthyS mv.toSq) then
            { state := st, sent := [], db := [] }
          else
            let f := mv.fromSq.getD ""
            let t := mv.toSq.getD ""
            let promo := if truthyS mv.promotion then mv.promotion else none
            match C.moveFn eng f t promo with
            | none => { state := st, sent := [], db := [] }
            | some eng' =>
              let g' := { g with
                game := some eng', fen := eng', updated_at := now }
              let st1 := { st with activeGames := aset st.activeGames gameId g' }
              let status := if C.isCheckmateFn eng' then "checkmate"
                else if C.isDrawFn eng' then "draw" else "in_progress"
              let dbs := [DbCall.recordMoveCall g.id f t "ai" mv.promotion,
                DbCall.updateGameStateCall g.id g'.fen status]
              let bc := broadcastMove C st1 g' eng' f t mv.promotion
              if C.isGameOverFn eng' then
                let go := handleGameOver C st1 g' eng'
                { state := go.state, sent := bc ++ go.sent, db := dbs ++ go.db }
              else
                { state := st1, sent := bc, db := dbs }

/-- The per-game loop of the `close` handler (server.js:70-89): for each of
the player's games still active, notify the (human, non-AI) opponent's
connections and delete the game from `activeGames`. -/
def closeGameLoop (playerId : Nat) :
    ServerState → List String → ServerState × List (Nat × Msg)
  | st, [] => (st, [])
  | st, gid :: rest =>
    match alookup st.activeGames gid with
    | none => closeGameLoop playerId st rest
    | some g =>
      let opponent := if g.white_player_fid = some (Pid.human playerId)
        then g.black_player_fid else g.white_player_fid
      let msgs := match opponent with
        | some (Pid.human f) =>
          ((alookup st.playerConnections f).getD []).map
            (fun c => (c, Msg.opponentDisconnected gid))
        | _ => []
      let st1 := { st with activeGames := aerase st.activeGames gid }
      let r := closeGameLoop playerId st1 rest
      (r.1, msgs ++ r.2)

/-- The first half of the `close` event handler (server.js:62-67): drop the
closing connection from `playerConnections`, deleting the entry when its
set empties. -/
def removeConnection (st : ServerState) (ws : Conn) : ServerState :=
  match alookup st.playerConnections ws.playerId with
  | none => st
  | some conns =>
    let conns' := conns.filter (fun c => !(c = ws.connId))
    if conns' = [] then
      { st with playerConnections := aerase st.playerConnections ws.playerId }
    else
      { st with playerConnections := aset st.playerConnections ws.playerId conns' }

/-- The `close` event handler (server.js:59-92): drop the closing
connection from `playerConnections`, then run the per-game cleanup loop
over the player's games and delete the player's `playerGames` entry. -/
def handleClose (st : ServerState) (ws : Conn) :
    ServerState × List (Nat × Msg) :=
  let st1 := removeConnection st ws
  match alookup st1.playerGames ws.playerId with
  | none => (st1, [])
  | some gids =>
    let r := closeGameLoop ws.playerId st1 gids
    ({ r.1 with playerGames := aerase r.1.playerGames ws.playerId }, r.2)

/-- The cache-coherence invariant of C10: every game in the active store has
its cached `fen` field equal to the FEN of its live chess.js instance. -/
def cacheConsistent (st : ServerState) : Prop :=
  ∀ p ∈ st.activeGames, ∀ eng, p.2.game = some eng → p.2.fen = eng

/-- The connection ids of the two human participants of a game, in
broadcast order (white first, skipping the `'ai'` sentinel). -/
def participantConns (st : ServerState) (g : Game) : List Nat :=
  (if g.white_player_fid = some Pid.ai then [] else connsOf st g.white_player_fid) ++
  (if g.black_player_fid = some Pid.ai then [] else connsOf st g.black_player_fid)

/-- A concrete rules-engine oracle for concrete runs: one scripted black
reply from position `FEN0` and one scripted white mating move from `FENM`;
the side to move alternates across each scripted move, as in chess.js. -/
def oracleA : ChessOracle :=
  { moveFn := fun fen f t p =>
      if fen = "FEN0" ∧ f = "e7" ∧ t = "e5" ∧ p = none then some "FENB1"
      else if fen = "FENM" ∧ f = "h5" ∧ t = "f7" ∧ p = none then some "FENMATE"
      else none,
    turnFn := fun fen => if fen = "FEN0" ∨ fen = "FENMATE" then "b" else "w",
    isCheckFn := fun fen => fen = "FENMATE",
    isCheckmateFn := fun fen => fen = "FENMATE",
    isDrawFn := fun _ => false,
    isGameOverFn := fun fen => fen = "FENMATE" }

/-- A live human-vs-human game between fids 1 (white) and 2 (black) at
position `FEN0`, black to move. -/
def gameHH : Game :=
  { id := "g1", fen := "FEN0", status := "in_progress",
    white_player_fid := some (Pid.human 1),
    black_player_fid := some (Pid.human 2),
    mode := some "casual", timeControls := none, difficulty := none,
    created_at := 0, updated_at := 0, players := none, game := some "FEN0" }

/-- A pending challenge created by fid 1. -/
def chal1 : Challenge :=
  { id := "c1", creator_fid := 1, status := "challenge_pending",
    mode := some "casual", timeControls := none,
    join_permission := "any_fid", created_at := 0 }

/-- A server state with the game `gameHH`, the challenge `chal1`, and
three connected players (fid 1 on connection 10, fid 2 on 20, fid 3 on 30;
fid 3 participates in no game). -/
def stHH : ServerState :=
  { activeGames := [("g1", gameHH)],
    pendingChallenges := [("c1", chal1)],
    playerGames := [(1, ["g1"]), (2, ["g1"])],
    playerConnections := [(1, [10]), (2, [20]), (3, [30])] }

/-- A live human-vs-human game between fids 1 (white) and 2 (black) at
position `FENM`, white to move with a mate in one available. -/
def gameM : Game :=
  { id := "gM", fen := "FENM", status := "in_progress",
    white_player_fid := some (Pid.human 1),
    black_player_fid := some (Pid.human 2),
    mode := some "casual", timeControls := none, difficulty := none,
    created_at := 0, updated_at := 0, players := none, game := some "FENM" }

/-- A server state with the mate-in-one game `gameM`. -/
def stM : ServerState :=
  { activeGames := [("gM", gameM)],
    pendingChallenges := [],
    playerGames := [(1, ["gM"]), (2, ["gM"])],
    playerConnections := [(1, [10]), (2, [20])] }

/-- White's connection in the fixtures. -/
def ws1 : Conn := { connId := 10, playerId := 1 }

/-- Black's connection in the fixtures. -/
def ws2 : Conn := { connId := 20, playerId := 2 }

/-- A connection of fid 3, who participates in no fixture game. -/
def ws3 : Conn := { connId := 30, playerId := 3 }

theorem alookup_aset_self {α β : Type} [DecidableEq α] :
    ∀ (l : List (α × β)) (k : α) (v : β), alookup (aset l k v) k = some v
  | [], k, v => by simp [aset, alookup]
  | (a, b) :: t, k, v => by
    by_cases h : a = k
    · simp [aset, alookup, h]
    · simp [aset, alookup, h, alookup_aset_self t k v]

theorem alookup_aset_ne {α β : Type} [DecidableEq α] :
    ∀ (l : List (α × β)) (k k' : α) (v : β), k' ≠ k →
      alookup (aset l k v) k' = alookup l k'
  | [], k, k', v, h => by simp [aset, alookup, Ne.symm h]
  | (a, b) :: t, k, k', v, h => by
    by_cases ha : a = k
    · subst ha
      simp [aset, alookup, Ne.symm h]
    · by_cases ha' : a = k'
      · simp [aset, alookup, ha, ha', h]
      · simp [aset, alookup, ha, ha', alookup_aset_ne t k k' v h]

theorem alookup_aerase_ne {α β : Type} [DecidableEq α] :
    ∀ (l : List (α × β)) (k k' : α), k' ≠ k →
      alookup (aerase l k) k' = alookup l k'
  | [], _, _, _ => rfl
  | (a, b) :: t, k, k', h => by
    by_cases ha : a = k
    · subst ha
      simp [aerase, alookup, Ne.symm h]
    · by_cases ha' : a = k'
      · simp [aerase, alookup, ha, ha', h]
      · simp [aerase, alookup, ha, ha', alookup_aerase_ne t k k' h]

theorem alookup_eq_none_of_not_mem {α β : Type} [DecidableEq α] :
    ∀ (l : List (α × β)) (k : α), k ∉ l.map Prod.fst → alookup l k = none
  | [], _, _ => rfl
  | (a, b) :: t, k, h => by
    simp only [List.map_cons, List.mem_cons, not_or] at h
    simp [alookup, Ne.symm h.1, alookup_eq_none_of_not_mem t k h.2]

theorem alookup_aerase_self {α β : Type} [DecidableEq α] :
    ∀ (l : List (α × β)) (k : α), (l.map Prod.fst).Nodup →
      alookup (aerase l k) k = none
  | [], _, _ => rfl
  | (a, b) :: t, k, h => by
    simp only [List.map_cons, List.nodup_cons] at h
    by_cases ha : a = k
    · subst ha
      simpa [aerase] using alookup_eq_none_of_not_mem t a h.1
    · simp [aerase, alookup, ha, alookup_aerase_self t k h.2]

theorem alookup_aerase_none {α β : Type} [DecidableEq α] :
    ∀ (l : List (α × β)) (k k' : α), alookup l k' = none →
      alookup (aerase l k) k' = none
  | [], _, _, _ => rfl
  | (a, b) :: t, k, k', h => by
    by_cases ha' : a = k'
    · simp [alookup, ha'] at h
    · simp only [alookup, if_neg ha'] at h
      by_cases ha : a = k
      · simp [aerase, ha, h]
      · simp [aerase, ha, alookup, ha', alookup_aerase_none t k k' h]

theorem aerase_sublist {α β : Type} [DecidableEq α] :
    ∀ (l : List (α × β)) (k : α), List.Sublist (aerase l k) l
  | [], _ => List.Sublist.refl []
  | (a, b) :: t, k => by
    by_cases ha : a = k
    · rw [aerase, if_pos ha]
      exact List.sublist_cons_self (a, b) t
    · rw [aerase, if_neg ha]
      exact List.Sublist.cons₂ (a, b) (aerase_sublist t k)

theorem nodup_keys_aerase {α β : Type} [DecidableEq α]
    (l : List (α × β)) (k : α) (h : (l.map Prod.fst).Nodup) :
    ((aerase l k).map Prod.fst).Nodup :=
  h.sublist ((aerase_sublist l k).map Prod.fst)

theorem mem_aset_elim {α β : Type} [DecidableEq α] :
    ∀ (l : List (α × β)) (k : α) (v : β) (p : α × β),
      p ∈ aset l k v → p = (k, v) ∨ p ∈ l
  | [], k, v, p, h => by
    simp [aset] at h
    exact Or.inl h
  | (a, b) :: t, k, v, p, h => by
    by_cases ha : a = k
    · simp only [aset, if_pos ha, List.mem_cons] at h
      rcases h with h | h
      · exact Or.inl h
      · exact Or.inr (List.mem_cons_of_mem _ h)
    · simp only [aset, if_neg ha, List.mem_cons] at h
      rcases h with h | h
      · exact Or.inr (by simp [h])
      · rcases mem_aset_elim t k v p h with h' | h'
        · exact Or.inl h'
        · exact Or.inr (List.mem_cons_of_mem _ h')

theorem mem_aerase_elim {α β : Type} [DecidableEq α]
    (l : List (α × β)) (k : α) (p : α × β) (h : p ∈ aerase l k) : p ∈ l :=
  (aerase_sublist l k).mem h

theorem mem_keys_aset {α β : Type} [DecidableEq α] :
    ∀ (l : List (α × β)) (k x : α) (v : β),
      x ∈ (aset l k v).map Prod.fst ↔ x ∈ l.map Prod.fst ∨ x = k
  | [], k, x, v => by simp [aset]
  | (a, b) :: t, k, x, v => by
    by_cases ha : a = k
    · subst ha
      simp only [aset, if_pos, List.map_cons, List.mem_cons]
      tauto
    · simp only [aset, if_neg ha, List.map_cons, List.mem_cons,
        mem_keys_aset t k x v]
      tauto

theorem nodup_keys_aset {α β : Type} [DecidableEq α] :
    ∀ (l : List (α × β)) (k : α) (v : β), (l.map Prod.fst).Nodup →
      ((aset l k v).map Prod.fst).Nodup
  | [], k, v, _ => by simp [aset]
  | (a, b) :: t, k, v, h => by
    simp only [List.map_cons, List.nodup_cons] at h
    by_cases ha : a = k
    · subst ha
      simp only [aset, if_pos, List.map_cons, List.nodup_cons]
      exact h
    · simp only [aset, if_neg ha, List.map_cons, List.nodup_cons]
      refine ⟨fun hmem => ?_, nodup_keys_aset t k v h.2⟩
      rcases (mem_keys_aset t k a v).mp hmem with h' | h'
      · exact h.1 h'
      · exact ha h'

theorem alookup_mem {α β : Type} [DecidableEq α] :
    ∀ (l : List (α × β)) (k : α) (v : β), alookup l k = some v → (k, v) ∈ l
  | [], k, v, h => by simp [alookup] at h
  | (a, b) :: t, k, v, h => by
    by_cases ha : a = k
    · subst ha
      simp [alookup] at h
      subst h
      exact List.mem_cons_self _ _
    · simp only [alookup, if_neg ha] at h
      exact List.mem_cons_of_mem _ (alookup_mem t k v h)


/-- C2: for every rejected `make_move` attempt — unknown or uninitialized
match, wrong turn (the engine's side to move differs from the color derived
for the requester), or a move the legality oracle reports illegal — the
server state, in particular the match's `fen`, `status` and `updated_at`,
is unchanged from before the attempt. -/
theorem make_move_rejection_frame (C : ChessOracle) (st : ServerState)
    (ws : Conn) (d : MoveData) (db1 db2 : Option String) (now : Nat) :
    (alookup st.activeGames d.gameId = none →
      (makeMoveHandler C st ws d db1 db2 now).state = st) ∧
    (∀ g, alookup st.activeGames d.gameId = some g → g.game = none →
      (makeMoveHandler C st ws d db1 db2 now).state = st) ∧
    (∀ g eng, alookup st.activeGames d.gameId = some g → g.game = some eng →
      C.turnFn eng ≠
        (if g.white_player_fid = some (Pid.human ws.playerId) then "w" else "b") →
      (makeMoveHandler C st ws d db1 db2 now).state = st) ∧
    (∀ g eng, alookup st.activeGames d.gameId = some g → g.game = some eng →
      C.turnFn eng =
        (if g.white_player_fid = some (Pid.human ws.playerId) then "w" else "b") →
      C.moveFn g.fen d.fromSq d.toSq
        (if truthyS d.promotion then d.promotion else none) = none →
      (makeMoveHandler C st ws d db1 db2 now).state = st) := by
  refine ⟨?_, ?_, ?_, ?_⟩
  · intro h
    simp [makeMoveHandler, h]
  · intro g hg he
    simp [makeMoveHandler, hg, he]
  · intro g eng hg he ht
    simp [makeMoveHandler, hg, he, ht]
  · intro g eng hg he ht hm
    simp [makeMoveHandler, hg, he, ht, hm]

/-- C2 witness: black (fid 2) submits `a7→a6`, which the oracle reports
illegal from `FEN0`; the state is unchanged. -/
theorem make_move_rejection_frame_witness :
    (makeMoveHandler oracleA stHH ws2
      { gameId := "g1", fromSq := "a7", toSq := "a6", promotion := none }
      none none 5).state = stHH :=
  (make_move_rejection_frame oracleA stHH ws2
      { gameId := "g1", fromSq := "a7", toSq := "a6", promotion := none }
      none none 5).2.2.2 gameHH "FEN0" (by decide) (by decide) (by decide)
      (by decide)

/-- C1 counterexample: fid 3 is not a participant of game `g1` (white is
fid 1, black is fid 2), yet its `make_move` `e7→e5` with black to move is
accepted: the position advances to `FENB1` and the move is broadcast to the
participants, with no error and no rejection. -/
theorem make_move_nonparticipant_accepted :
    ((alookup (makeMoveHandler oracleA stHH ws3
        { gameId := "g1", fromSq := "e7", toSq := "e5", promotion := none }
        none none 5).state.activeGames "g1").map Game.fen = some "FENB1") ∧
    (makeMoveHandler oracleA stHH ws3
        { gameId := "g1", fromSq := "e7", toSq := "e5", promotion := none }
        none none 5).sent =
      [(10, Msg.moveMade "g1" "e7" "e5" none "FENB1" "w" false false false),
       (20, Msg.moveMade "g1" "e7" "e5" none "FENB1" "w" false false false)] := by
  decide

/-- C1 (amended): a `make_move` is rejected with "Not your turn" and no
state change exactly when the engine's side to move differs from the color
derived for the requester, where that color is white if the requester's
identity equals the white participant and black in every other case — so a
participant moving out of turn is rejected, but a requester that is not a
participant at all is treated as the black side rather than rejected.
Over successfully-applied moves the side to move still strictly
alternates, provided the engine flips the turn on each applied move. -/
theorem make_move_turn_guard (C : ChessOracle) (st : ServerState) (ws : Conn)
    (d : MoveData) (db1 db2 : Option String) (now : Nat) (g : Game)
    (eng : String) (hnodup : (st.activeGames.map Prod.fst).Nodup)
    (hg : alookup st.activeGames d.gameId = some g) (he : g.game = some eng) :
    (C.turnFn eng ≠
        (if g.white_player_fid = some (Pid.human ws.playerId) then "w" else "b") →
      (makeMoveHandler C st ws d db1 db2 now).state = st ∧
      (makeMoveHandler C st ws d db1 db2 now).sent =
        [(ws.connId, Msg.error "Not your turn")]) ∧
    ((∀ fen', C.moveFn eng d.fromSq d.toSq
          (if truthyS d.promotion then d.promotion else none) = some fen' →
        C.turnFn fen' ≠ C.turnFn eng) →
      ∀ g' eng',
        alookup (makeMoveHandler C st ws d db1 db2 now).state.activeGames
          d.gameId = some g' →
        g'.game = some eng' → eng' ≠ eng → C.turnFn eng' ≠ C.turnFn eng) := by
  constructor
  · intro ht
    constructor <;> simp [makeMoveHandler, hg, he, ht]
  · intro hflip g' eng' hlook he' hne
    by_cases ht : C.turnFn eng ≠
        (if g.white_player_fid = some (Pid.human ws.playerId) then "w" else "b")
    · simp only [makeMoveHandler, hg, he, if_pos ht] at hlook
      obtain rfl : g = g' := by injection hlook
      rw [he] at he'
      obtain rfl : eng = eng' := by injection he'
      exact absurd rfl hne
    · push_neg at ht
      cases hm : C.moveFn g.fen d.fromSq d.toSq
          (if truthyS d.promotion then d.promotion else none) with
      | none =>
        simp only [makeMoveHandler, hg, he, ht, ne_eq, not_true_eq_false,
          if_false, hm] at hlook
        obtain rfl : g = g' := by injection hlook
        rw [he] at he'
        obtain rfl : eng = eng' := by injection he'
        exact absurd rfl hne
      | some v =>
        cases hm2 : C.moveFn eng d.fromSq d.toSq
            (if truthyS d.promotion then d.promotion else none) with
        | none =>
          have hstored : ∀ gs,
              alookup (aset st.activeGames d.gameId
                { g with game := some eng, fen := eng, updated_at := now })
                d.gameId = some gs → gs.game = some eng := by
            intro gs hgs
            rw [alookup_aset_self] at hgs
            obtain rfl : _ = gs := by injection hgs
            rfl
          cases db1 with
          | some e =>
            simp only [makeMoveHandler, hg, he, ht, ne_eq, not_true_eq_false,
              if_false, hm, hm2, Option.getD_some, Option.getD_none] at hlook
            have := hstored g' hlook
            rw [this] at he'
            obtain rfl : eng = eng' := by injection he'
            exact absurd rfl hne
          | none =>
            by_cases hov : C.isGameOverFn eng = true
            · simp only [makeMoveHandler, hg, he, ht, ne_eq, not_true_eq_false,
                if_false, hm, hm2, Option.getD_none, hov, if_true,
                handleGameOver] at hlook
              by_cases hid : g.id = d.gameId
              · rw [← hid] at hlook
                rw [alookup_aerase_self _ _
                  (nodup_keys_aset _ _ _ hnodup)] at hlook
                exact absurd hlook (by simp)
              · rw [alookup_aerase_ne _ _ _ (fun hq => hid hq.symm)] at hlook
                have := hstored g' hlook
                rw [this] at he'
                obtain rfl : eng = eng' := by injection he'
                exact absurd rfl hne
            · simp only [makeMoveHandler, hg, he, ht, ne_eq, not_true_eq_false,
                if_false, hm, hm2, Option.getD_none, hov, if_false] at hlook
              have := hstored g' hlook
              rw [this] at he'
              obtain rfl : eng = eng' := by injection he'
              exact absurd rfl hne
        | some w =>
          have hstored : ∀ gs,
              alookup (aset st.activeGames d.gameId
                { g with game := some w, fen := w, updated_at := now })
                d.gameId = some gs → gs.game = some w := by
            intro gs hgs
            rw [alookup_aset_self] at hgs
            obtain rfl : _ = gs := by injection hgs
            rfl
          have finish : g'.game = some w → C.turnFn eng' ≠ C.turnFn eng := by
            intro hgw
            rw [hgw] at he'
            obtain rfl : w = eng' := by injection he'
            exact hflip _ hm2
          cases db1 with
          | some e =>
            simp only [makeMoveHandler, hg, he, ht, ne_eq, not_true_eq_false,
              if_false, hm, hm2, Option.getD_some] at hlook
            exact finish (hstored g' hlook)
          | none =>
            by_cases hov : C.isGameOverFn w = true
            · simp only [makeMoveHandler, hg, he, ht, ne_eq, not_true_eq_false,
                if_false, hm, hm2, Option.getD_some, hov, if_true,
                handleGameOver] at hlook
              by_cases hid : g.id = d.gameId
              · rw [← hid] at hlook
                rw [alookup_aerase_self _ _
                  (nodup_keys_aset _ _ _ hnodup)] at hlook
                exact absurd hlook (by simp)
              · rw [alookup_aerase_ne _ _ _ (fun hq => hid hq.symm)] at hlook
                exact finish (hstored g' hlook)
            · simp only [makeMoveHandler, hg, he, ht, ne_eq, not_true_eq_false,
                if_false, hm, hm2, Option.getD_some, hov, if_false] at hlook
              exact finish (hstored g' hlook)

/-- C1 witness: white (fid 1) moving with black to move is rejected with
"Not your turn" and no state change; and black's successfully-applied
`e7→e5` flips the side to move from black to white. -/
theorem make_move_turn_guard_witness :
    ((makeMoveHandler oracleA stHH ws1
        { gameId := "g1", fromSq := "e2", toSq := "e4", promotion := none }
        none none 5).state = stHH ∧
      (makeMoveHandler oracleA stHH ws1
        { gameId := "g1", fromSq := "e2", toSq := "e4", promotion := none }
        none none 5).sent = [(10, Msg.error "Not your turn")]) ∧
    oracleA.turnFn "FENB1" ≠ oracleA.turnFn "FEN0" := by
  constructor
  · exact (make_move_turn_guard oracleA stHH ws1
      { gameId := "g1", fromSq := "e2", toSq := "e4", promotion := none }
      none none 5 gameHH "FEN0" (by decide) (by decide) (by decide)).1
      (by decide)
  · exact (make_move_turn_guard oracleA stHH ws2
      { gameId := "g1", fromSq := "e7", toSq := "e5", promotion := none }
      none none 5 gameHH "FEN0" (by decide) (by decide) (by decide)).2
      (by intro fen' hf
          simp [oracleA] at hf
          subst hf
          decide)
      { gameHH with game := some "FENB1", fen := "FENB1", updated_at := 5 }
      "FENB1" (by decide) (by decide) (by decide)

/-- C3 (code bug): `resignGameHandler` reads `game.players`, a field that no
game object built by this program ever carries, so a resign of any active
match throws a TypeError before any notification, persistence or removal:
the handler crashes with nothing sent, no database call, and the match is
still in the active store (a later `make_move` would not be rejected as
not found). -/
theorem resign_crashes (st : ServerState) (ws : Conn) (gameId : String)
    (g : Game) (hg : alookup st.activeGames gameId = some g)
    (hp : g.players = none) :
    (resignGameHandler st ws gameId).crashed = true ∧
    (resignGameHandler st ws gameId).state = st ∧
    (resignGameHandler st ws gameId).sent = [] ∧
    (resignGameHandler st ws gameId).db = [] ∧
    alookup (resignGameHandler st ws gameId).state.activeGames gameId =
      some g := by
  refine ⟨?_, ?_, ?_, ?_, ?_⟩ <;> simp [resignGameHandler, hg, hp]

/-- C3 witness: fid 1 resigns the live game `g1`; the handler crashes and
the game stays active with nobody notified. -/
theorem resign_crashes_witness :
    (resignGameHandler stHH ws1 "g1").crashed = true ∧
    (resignGameHandler stHH ws1 "g1").state = stHH ∧
    (resignGameHandler stHH ws1 "g1").sent = [] ∧
    (resignGameHandler stHH ws1 "g1").db = [] ∧
    alookup (resignGameHandler stHH ws1 "g1").state.activeGames "g1" =
      some gameHH :=
  resign_crashes stHH ws1 "g1" gameHH (by decide) (by decide)

/-- C9 counterexample: no open-queue opponent kind exists.  A `create_game`
with `opponentType: 'random'` (the frontend's open-queue kind) and no
compatible waiting match should, per the claim, enqueue the match as
awaiting an opponent and send a waiting acknowledgment; the backend
instead rejects the command with an error and creates nothing. -/
theorem create_game_openqueue_rejected :
    (dispatchCreateGame stHH ws1
      { mode := some "casual", opponentType := some "random",
        timeControls := none, preferredColor := none, difficulty := none }
      none 5 "newgame").state = stHH ∧
    (dispatchCreateGame stHH ws1
      { mode := some "casual", opponentType := some "random",
        timeControls := none, preferredColor := none, difficulty := none }
      none 5 "newgame").sent =
      [(10, Msg.error "Invalid opponent type: random")] ∧
    (dispatchCreateGame stHH ws1
      { mode := some "casual", opponentType := some "random",
        timeControls := none, preferredColor := none, difficulty := none }
      none 5 "newgame").db = [] := by
  decide

/-- C9 (amended): `create_game` supports only the `'ai'` and `'specific'`
opponent kinds; any other opponent kind — including an open-queue /
random-matchmaking kind — is rejected with an "Invalid opponent type"
error, no state is created, and no matchmaking queue is consulted. -/
theorem create_game_invalid_opponent_type (st : ServerState) (ws : Conn)
    (d : CreateGameData) (dbc : Option String) (now : Nat) (nid : String)
    (hm : truthyS d.mode = true) (ho : truthyS d.opponentType = true)
    (hai : d.opponentType ≠ some "ai") (hsp : d.opponentType ≠ some "specific") :
    (dispatchCreateGame st ws d dbc now nid).state = st ∧
    (dispatchCreateGame st ws d dbc now nid).sent =
      [(ws.connId,
        Msg.error ("Invalid opponent type: " ++ d.opponentType.getD ""))] ∧
    (dispatchCreateGame st ws d dbc now nid).db = [] := by
  refine ⟨?_, ?_, ?_⟩ <;> simp [dispatchCreateGame, hm, ho, hai, hsp]

/-- C9 witness: the amended rejection at a concrete `'openQueue'` request. -/
theorem create_game_invalid_opponent_type_witness :
    (dispatchCreateGame stM ws1
      { mode := some "blitz", opponentType := some "openQueue",
        timeControls := none, preferredColor := none, difficulty := none }
      none 7 "n1").state = stM ∧
    (dispatchCreateGame stM ws1
      { mode := some "blitz", opponentType := some "openQueue",
        timeControls := none, preferredColor := none, difficulty := none }
      none 7 "n1").sent =
      [(10, Msg.error "Invalid opponent type: openQueue")] ∧
    (dispatchCreateGame stM ws1
      { mode := some "blitz", opponentType := some "openQueue",
        timeControls := none, preferredColor := none, difficulty := none }
      none 7 "n1").db = [] :=
  create_game_invalid_opponent_type stM ws1
    { mode := some "blitz", opponentType := some "openQueue",
      timeControls := none, preferredColor := none, difficulty := none }
    none 7 "n1" (by decide) (by decide) (by decide) (by decide)

/-- C6: a pending challenge token is claimable at most once: claiming an
unknown (or expired, hence already deleted) token fails with an error and
no state change; claiming one's own token fails likewise with no Match
created; and a successful claim deletes the challenge, so a second
`join_challenge` with the same token is rejected as not found with no
further state change. -/
theorem join_challenge_one_shot :
    (∀ st ws gidf dbc coin now, truthyS gidf = true →
      alookup st.pendingChallenges (gidf.getD "") = none →
      (handleJoinChallenge st ws gidf dbc coin now).state = st ∧
      (handleJoinChallenge st ws gidf dbc coin now).sent =
        [(ws.connId, Msg.error "Challenge not found or expired.")]) ∧
    (∀ st ws gidf dbc coin now ch, truthyS gidf = true →
      alookup st.pendingChallenges (gidf.getD "") = some ch →
      ch.creator_fid = ws.playerId →
      (handleJoinChallenge st ws gidf dbc coin now).state = st ∧
      (handleJoinChallenge st ws gidf dbc coin now).sent =
        [(ws.connId, Msg.error "Cannot join your own challenge.")]) ∧
    (∀ st ws wsB gidf dbc2 coin coin2 now now2 ch, truthyS gidf = true →
      alookup st.pendingChallenges (gidf.getD "") = some ch →
      ch.creator_fid ≠ ws.playerId → ch.id = gidf.getD "" →
      (st.pendingChallenges.map Prod.fst).Nodup →
      alookup
        (handleJoinChallenge st ws gidf none coin now).state.pendingChallenges
        (gidf.getD "") = none ∧
      (handleJoinChallenge (handleJoinChallenge st ws gidf none coin now).state
          wsB gidf dbc2 coin2 now2).state =
        (handleJoinChallenge st ws gidf none coin now).state ∧
      (handleJoinChallenge (handleJoinChallenge st ws gidf none coin now).state
          wsB gidf dbc2 coin2 now2).sent =
        [(wsB.connId, Msg.error "Challenge not found or expired.")]) := by
  refine ⟨?_, ?_, ?_⟩
  · intro st ws gidf dbc coin now htr hnone
    constructor <;> simp [handleJoinChallenge, htr, hnone]
  · intro st ws gidf dbc coin now ch htr hch hself
    constructor <;> simp [handleJoinChallenge, htr, hch, hself]
  · intro st ws wsB gidf dbc2 coin coin2 now now2 ch htr hch hself hid hnd
    have h1 : (handleJoinChallenge st ws gidf none coin now).state.pendingChallenges
        = aerase st.pendingChallenges ch.id := by
      simp [handleJoinChallenge, htr, hch, hself]
    have hnone : alookup
        (handleJoinChallenge st ws gidf none coin now).state.pendingChallenges
        (gidf.getD "") = none := by
      rw [h1, ← hid]
      exact alookup_aerase_self _ _ hnd
    refine ⟨hnone, ?_, ?_⟩ <;>
    · generalize hq : (handleJoinChallenge st ws gidf none coin now).state = stA
        at hnone ⊢
      simp [handleJoinChallenge, htr, hnone]

/-- C6 witness: fid 2 claims `c1` successfully; the token is deleted, fid
1's self-claim is rejected, and a second claim of `c1` is rejected as not
found without state change. -/
theorem join_challenge_one_shot_witness :
    ((handleJoinChallenge stHH ws1 (some "c1") none true 5).state = stHH ∧
      (handleJoinChallenge stHH ws1 (some "c1") none true 5).sent =
        [(10, Msg.error "Cannot join your own challenge.")]) ∧
    alookup
      (handleJoinChallenge stHH ws2 (some "c1") none true 5).state.pendingChallenges
      "c1" = none ∧
    (handleJoinChallenge (handleJoinChallenge stHH ws2 (some "c1") none true 5).state
        ws3 (some "c1") none false 6).state =
      (handleJoinChallenge stHH ws2 (some "c1") none true 5).state ∧
    (handleJoinChallenge (handleJoinChallenge stHH ws2 (some "c1") none true 5).state
        ws3 (some "c1") none false 6).sent =
      [(30, Msg.error "Challenge not found or expired.")] := by
  refine ⟨?_, ?_⟩
  · exact join_challenge_one_shot.2.1 stHH ws1 (some "c1") none true 5 chal1
      (by decide) (by decide) (by decide)
  · exact join_challenge_one_shot.2.2 stHH ws2 ws3 (some "c1") none true
      false 5 6 chal1 (by decide) (by decide) (by decide) (by decide)
      (by decide)

/-- C8: a `reset_game` on an active, initialized match reinitializes the
position to the standard starting position, keeps the side assignment,
mode, time controls, difficulty and creation time unchanged with the phase
`in_progress`, notifies every connection of both human participants with
`game_reset`, and persists the reset state. -/
theorem reset_game_spec (st : ServerState) (ws : Conn) (gid : String)
    (dbState : Option String) (now : Nat) (g : Game) (eng : String)
    (hg : alookup st.activeGames gid = some g) (he : g.game = some eng) :
    ∃ g', alookup (resetGameHandler st ws gid dbState now).state.activeGames
        gid = some g' ∧
      g'.fen = initialFEN ∧ g'.game = some initialFEN ∧
      g'.status = "in_progress" ∧
      g'.white_player_fid = g.white_player_fid ∧
      g'.black_player_fid = g.black_player_fid ∧
      g'.mode = g.mode ∧ g'.timeControls = g.timeControls ∧
      g'.difficulty = g.difficulty ∧ g'.created_at = g.created_at ∧
      (∀ c, c ∈ participantConns st g →
        (c, Msg.gameReset g.id initialFEN) ∈
          (resetGameHandler st ws gid dbState now).sent) ∧
      DbCall.updateGameStateCall g.id initialFEN "in_progress" ∈
        (resetGameHandler st ws gid dbState now).db := by
  refine ⟨{ g with
    game := some initialFEN, fen := initialFEN,
    updated_at := now, status := "in_progress" }, ?_, rfl, rfl, rfl, rfl,
    rfl, rfl, rfl, rfl, rfl, ?_, ?_⟩
  · simp only [resetGameHandler, hg, he]
    exact alookup_aset_self _ _ _
  · intro c hc
    simp only [participantConns, List.mem_append] at hc
    simp only [resetGameHandler, hg, he, List.mem_append, connsOf]
    rcases hc with hc | hc
    · by_cases hw : g.white_player_fid = some Pid.ai
      · simp [hw] at hc
      · simp only [if_neg hw, connsOf] at hc ⊢
        exact Or.inl (List.mem_map_of_mem _ hc)
    · by_cases hb : g.black_player_fid = some Pid.ai
      · simp [hb] at hc
      · simp only [if_neg hb, connsOf] at hc ⊢
        exact Or.inr (List.mem_map_of_mem _ hc)
  · simp [resetGameHandler, hg, he]

/-- C8 witness: fid 1 resets the live game `g1`. -/
theorem reset_game_spec_witness :
    ∃ g', alookup (resetGameHandler stHH ws1 "g1" none 9).state.activeGames
        "g1" = some g' ∧
      g'.fen = initialFEN ∧ g'.game = some initialFEN ∧
      g'.status = "in_progress" ∧
      g'.white_player_fid = gameHH.white_player_fid ∧
      g'.black_player_fid = gameHH.black_player_fid ∧
      g'.mode = gameHH.mode ∧ g'.timeControls = gameHH.timeControls ∧
      g'.difficulty = gameHH.difficulty ∧ g'.created_at = gameHH.created_at ∧
      (∀ c, c ∈ participantConns stHH gameHH →
        (c, Msg.gameReset gameHH.id initialFEN) ∈
          (resetGameHandler stHH ws1 "g1" none 9).sent) ∧
      DbCall.updateGameStateCall gameHH.id initialFEN "in_progress" ∈
        (resetGameHandler stHH ws1 "g1" none 9).db :=
  reset_game_spec stHH ws1 "g1" none 9 gameHH "FEN0" (by decide) (by decide)

theorem no_error_in_broadcast (C : ChessOracle) (st : ServerState)
    (g : Game) (eng f t : String) (p : Option String) (c : Nat) (m : String) :
    (c, Msg.error m) ∉ broadcastMove C st g eng f t p := by
  intro hcm
  simp only [broadcastMove, List.mem_append] at hcm
  rcases hcm with hcm | hcm <;>
  · split at hcm
    · simp at hcm
    · simp only [List.mem_map] at hcm
      obtain ⟨x, _, hx⟩ := hcm
      simp at hx

theorem no_error_in_gameover (C : ChessOracle) (st : ServerState)
    (g : Game) (eng : String) (c : Nat) (m : String) :
    (c, Msg.error m) ∉ (handleGameOver C st g eng).sent := by
  intro hcm
  simp only [handleGameOver, List.mem_append] at hcm
  rcases hcm with hcm | hcm <;>
  · split at hcm
    · simp at hcm
    · simp only [List.mem_map] at hcm
      obtain ⟨x, _, hx⟩ := hcm
      simp at hx

/-- C5 counterexample: black's legal `e7→e5` is applied in memory (the
position advances to `FENB1`), but because the `recordMove` persistence
call fails, the requester is sent a "Failed to record move" error and the
`move_made` broadcast to the participants is suppressed — contradicting
the claim that persistence failures are never surfaced and the broadcast
still occurs. -/
theorem make_move_record_failure_surfaced :
    (makeMoveHandler oracleA stHH ws2
      { gameId := "g1", fromSq := "e7", toSq := "e5", promotion := none }
      (some "db write failed") none 5).sent =
      [(20, Msg.error "Failed to record move")] ∧
    ((alookup (makeMoveHandler oracleA stHH ws2
      { gameId := "g1", fromSq := "e7", toSq := "e5", promotion := none }
      (some "db write failed") none 5).state.activeGames "g1").map Game.fen
      = some "FENB1") := by
  decide

/-- C5 (amended): once a legal move has been applied, the in-memory match
state is never rolled back for a persistence failure; a failure of the
`updateGameState` call is only logged — no error is sent and the
`move_made` broadcast to every connection of both human participants still
occurs; but a failure of the `recordMove` call is surfaced to the requester
as a "Failed to record move" error and suppresses the broadcast. -/
theorem make_move_persistence (C : ChessOracle) (st : ServerState)
    (ws : Conn) (d : MoveData) (db2 : Option String) (now : Nat) (g : Game)
    (eng eng' : String) (hnodup : (st.activeGames.map Prod.fst).Nodup)
    (hg : alookup st.activeGames d.gameId = some g) (he : g.game = some eng)
    (ht : C.turnFn eng =
      (if g.white_player_fid = some (Pid.human ws.playerId) then "w" else "b"))
    (htmp : C.moveFn g.fen d.fromSq d.toSq
      (if truthyS d.promotion then d.promotion else none) ≠ none)
    (hmv : C.moveFn eng d.fromSq d.toSq
      (if truthyS d.promotion then d.promotion else none) = some eng') :
    (∀ e, (makeMoveHandler C st ws d (some e) db2 now).sent =
        [(ws.connId, Msg.error "Failed to record move")] ∧
      ∀ gs, alookup (makeMoveHandler C st ws d (some e) db2
          now).state.activeGames d.gameId = some gs → gs.fen = eng') ∧
    (∀ c m, (c, Msg.error m) ∉ (makeMoveHandler C st ws d none db2 now).sent) ∧
    (∀ c, c ∈ participantConns st g →
      (c, Msg.moveMade g.id d.fromSq d.toSq d.promotion eng' (C.turnFn eng')
        (C.isCheckFn eng') (C.isCheckmateFn eng') (C.isDrawFn eng')) ∈
        (makeMoveHandler C st ws d none db2 now).sent) ∧
    (∀ gs, alookup (makeMoveHandler C st ws d none db2
        now).state.activeGames d.gameId = some gs → gs.fen = eng') := by
  cases hmc : C.moveFn g.fen d.fromSq d.toSq
      (if truthyS d.promotion then d.promotion else none) with
  | none => exact absurd hmc htmp
  | some v =>
    refine ⟨?_, ?_, ?_, ?_⟩
    · intro e
      constructor
      · simp [makeMoveHandler, hg, he, ht, hmc, hmv]
      · intro gs hgs
        simp only [makeMoveHandler, hg, he, ht, ne_eq, not_true_eq_false,
          if_false, hmc, hmv, Option.getD_some] at hgs
        rw [alookup_aset_self] at hgs
        obtain rfl : _ = gs := by injection hgs
        rfl
    · intro c m hcm
      by_cases hov : C.isGameOverFn eng' = true
      · simp only [makeMoveHandler, hg, he, ht, ne_eq, not_true_eq_false,
          if_false, hmc, hmv, Option.getD_some, hov, if_true] at hcm
        rcases List.mem_append.mp hcm with h | h
        · exact no_error_in_broadcast _ _ _ _ _ _ _ _ _ h
        · exact no_error_in_gameover _ _ _ _ _ _ h
      · simp only [makeMoveHandler, hg, he, ht, ne_eq, not_true_eq_false,
          if_false, hmc, hmv, Option.getD_some, hov, if_false] at hcm
        exact no_error_in_broadcast _ _ _ _ _ _ _ _ _ hcm
    · intro c hc
      simp only [participantConns, List.mem_append] at hc
      by_cases hov : C.isGameOverFn eng' = true
      · simp only [makeMoveHandler, hg, he, ht, ne_eq, not_true_eq_false,
          if_false, hmc, hmv, Option.getD_some, hov, if_true,
          broadcastMove, List.mem_append]
        rcases hc with hc | hc
        · by_cases hw : g.white_player_fid = some Pid.ai
          · simp [hw] at hc
          · rw [if_neg hw] at hc
            refine Or.inl (Or.inl ?_)
            rw [if_neg hw]
            exact List.mem_map_of_mem _ hc
        · by_cases hb : g.black_player_fid = some Pid.ai
          · simp [hb] at hc
          · rw [if_neg hb] at hc
            refine Or.inl (Or.inr ?_)
            rw [if_neg hb]
            exact List.mem_map_of_mem _ hc
      · simp only [makeMoveHandler, hg, he, ht, ne_eq, not_true_eq_false,
          if_false, hmc, hmv, Option.getD_some, hov, Bool.false_eq_true,
          broadcastMove, List.mem_append]
        rcases hc with hc | hc
        · by_cases hw : g.white_player_fid = some Pid.ai
          · simp [hw] at hc
          · rw [if_neg hw] at hc
            refine Or.inl ?_
            rw [if_neg hw]
            exact List.mem_map_of_mem _ hc
        · by_cases hb : g.black_player_fid = some Pid.ai
          · simp [hb] at hc
          · rw [if_neg hb] at hc
            refine Or.inr ?_
            rw [if_neg hb]
            exact List.mem_map_of_mem _ hc
    · intro gs hgs
      by_cases hov : C.isGameOverFn eng' = true
      · simp only [makeMoveHandler, hg, he, ht, ne_eq, not_true_eq_false,
          if_false, hmc, hmv, Option.getD_some, hov, if_true,
          handleGameOver] at hgs
        by_cases hid : g.id = d.gameId
        · rw [← hid] at hgs
          rw [alookup_aerase_self _ _ (nodup_keys_aset _ _ _ hnodup)] at hgs
          exact absurd hgs (by simp)
        · rw [alookup_aerase_ne _ _ _ (fun hq => hid hq.symm)] at hgs
          rw [alookup_aset_self] at hgs
          obtain rfl : _ = gs := by injection hgs
          rfl
      · simp only [makeMoveHandler, hg, he, ht, ne_eq, not_true_eq_false,
          if_false, hmc, hmv, Option.getD_some, hov, Bool.false_eq_true] at hgs
        rw [alookup_aset_self] at hgs
        obtain rfl : _ = gs := by injection hgs
        rfl

/-- C5 witness: black's legal `e7→e5` with a failing `updateGameState`
call: no error is sent and the broadcast reaches white's connection; with
a failing `recordMove` call the error is surfaced; and in both cases the
in-memory position stays `FENB1`. -/
theorem make_move_persistence_witness :
    ((makeMoveHandler oracleA stHH ws2
        { gameId := "g1", fromSq := "e7", toSq := "e5", promotion := none }
        (some "boom") (some "state write failed") 5).sent =
      [(20, Msg.error "Failed to record move")]) ∧
    ((10, Msg.moveMade "g1" "e7" "e5" none "FENB1" (oracleA.turnFn "FENB1")
        (oracleA.isCheckFn "FENB1") (oracleA.isCheckmateFn "FENB1")
        (oracleA.isDrawFn "FENB1")) ∈
      (makeMoveHandler oracleA stHH ws2
        { gameId := "g1", fromSq := "e7", toSq := "e5", promotion := none }
        none (some "state write failed") 5).sent) ∧
    ((20, Msg.error "state write failed") ∉
      (makeMoveHandler oracleA stHH ws2
        { gameId := "g1", fromSq := "e7", toSq := "e5", promotion := none }
        none (some "state write failed") 5).sent) := by
  refine ⟨?_, ?_, ?_⟩
  · exact ((make_move_persistence oracleA stHH ws2
      { gameId := "g1", fromSq := "e7", toSq := "e5", promotion := none }
      (some "state write failed") 5 gameHH "FEN0" "FENB1" (by decide)
      (by decide) (by decide) (by decide) (by decide) (by decide)).1
      "boom").1
  · exact (make_move_persistence oracleA stHH ws2
      { gameId := "g1", fromSq := "e7", toSq := "e5", promotion := none }
      (some "state write failed") 5 gameHH "FEN0" "FENB1" (by decide)
      (by decide) (by decide) (by decide) (by decide) (by decide)).2.2.1
      10 (by decide)
  · exact (make_move_persistence oracleA stHH ws2
      { gameId := "g1", fromSq := "e7", toSq := "e5", promotion := none }
      (some "state write failed") 5 gameHH "FEN0" "FENB1" (by decide)
      (by decide) (by decide) (by decide) (by decide) (by decide)).2.1
      20 "state write failed"

theorem removeConnection_activeGames (st : ServerState) (ws : Conn) :
    (removeConnection st ws).activeGames = st.activeGames := by
  unfold removeConnection
  cases alookup st.playerConnections ws.playerId with
  | none => rfl
  | some conns =>
    by_cases hemp : conns.filter (fun c => !(c = ws.connId)) = [] <;>
      simp [hemp]

theorem removeConnection_playerGames (st : ServerState) (ws : Conn) :
    (removeConnection st ws).playerGames = st.playerGames := by
  unfold removeConnection
  cases alookup st.playerConnections ws.playerId with
  | none => rfl
  | some conns =>
    by_cases hemp : conns.filter (fun c => !(c = ws.connId)) = [] <;>
      simp [hemp]

theorem removeConnection_pc_other (st : ServerState) (ws : Conn) (f : Nat)
    (hf : f ≠ ws.playerId) :
    alookup (removeConnection st ws).playerConnections f =
      alookup st.playerConnections f := by
  unfold removeConnection
  cases alookup st.playerConnections ws.playerId with
  | none => rfl
  | some conns =>
    by_cases hemp : conns.filter (fun c => !(c = ws.connId)) = []
    · simp only [hemp, if_pos]
      exact alookup_aerase_ne _ _ _ hf
    · simp only [if_neg hemp]
      exact alookup_aset_ne _ _ _ _ hf

theorem closeGameLoop_none (p : Nat) :
    ∀ (l : List String) (st : ServerState) (gid : String),
      alookup st.activeGames gid = none →
      alookup (closeGameLoop p st l).1.activeGames gid = none
  | [], _, _, h => h
  | h0 :: rest, st, gid, h => by
    simp only [closeGameLoop]
    cases hh : alookup st.activeGames h0 with
    | none =>
      simp only [hh]
      exact closeGameLoop_none p rest st gid h
    | some g0 =>
      simp only [hh]
      exact closeGameLoop_none p rest _ gid (alookup_aerase_none _ _ _ h)

theorem closeGameLoop_main (p : Nat) :
    ∀ (l : List String) (st : ServerState) (gid : String) (g : Game),
      l.Nodup → gid ∈ l →
      (st.activeGames.map Prod.fst).Nodup →
      alookup st.activeGames gid = some g →
      alookup (closeGameLoop p st l).1.activeGames gid = none ∧
      (∀ f, (if g.white_player_fid = some (Pid.human p) then g.black_player_fid
          else g.white_player_fid) = some (Pid.human f) →
        ∀ c, c ∈ (alookup st.playerConnections f).getD [] →
          (c, Msg.opponentDisconnected gid) ∈ (closeGameLoop p st l).2)
  | [], _, _, _, _, hmem, _, _ => absurd hmem (List.not_mem_nil _)
  | h0 :: rest, st, gid, g, hnd, hmem, hkeys, hg => by
    simp only [List.nodup_cons] at hnd
    by_cases heq : h0 = gid
    · subst heq
      simp only [closeGameLoop, hg]
      constructor
      · exact closeGameLoop_none p rest _ h0 (alookup_aerase_self _ _ hkeys)
      · intro f hf c hc
        refine List.mem_append_left _ ?_
        rw [hf]
        exact List.mem_map_of_mem _ hc
    · have hmem' : gid ∈ rest := by
        rcases List.mem_cons.mp hmem with h | h
        · exact absurd h.symm heq
        · exact h
      simp only [closeGameLoop]
      cases hh : alookup st.activeGames h0 with
      | none =>
        simp only [hh]
        exact closeGameLoop_main p rest st gid g hnd.2 hmem' hkeys hg
      | some g0 =>
        simp only [hh]
        have ih := closeGameLoop_main p rest
          { st with activeGames := aerase st.activeGames h0 } gid g hnd.2
          hmem' (nodup_keys_aerase _ _ hkeys)
          (by
            show alookup (aerase st.activeGames h0) gid = some g
            rw [alookup_aerase_ne _ _ _ (fun hq => heq hq.symm)]
            exact hg)
        refine ⟨ih.1, ?_⟩
        intro f hf c hc
        exact List.mem_append_right _ (ih.2 f hf c hc)

/-- C4 counterexample: fid 1 disconnects while game `g1` is `in_progress`;
the opponent fid 2 is notified, but the match is deleted from the active
store — the claim that it remains available for reconnection is false. -/
theorem disconnect_deletes_in_progress :
    alookup (handleClose stHH ws1).1.activeGames "g1" = none ∧
    (handleClose stHH ws1).2 = [(20, Msg.opponentDisconnected "g1")] := by
  decide

/-- C4 (amended): when a participant's connection closes, each of their
active matches is handled as follows: the other participant, if human, is
sent an advisory `opponent_disconnected` on every registered connection —
but the match is then DELETED from the active store regardless of its
status, so the peer cannot reconnect and resume, and a later `make_move`
on that matchId is rejected as not found. -/
theorem disconnect_removes_games (st : ServerState) (ws : Conn)
    (gids : List String) (gid : String) (g : Game)
    (hkeys : (st.activeGames.map Prod.fst).Nodup)
    (hpg : alookup st.playerGames ws.playerId = some gids)
    (hnd : gids.Nodup) (hmem : gid ∈ gids)
    (hg : alookup st.activeGames gid = some g) :
    alookup (handleClose st ws).1.activeGames gid = none ∧
    (∀ f, f ≠ ws.playerId →
      (if g.white_player_fid = some (Pid.human ws.playerId) then
        g.black_player_fid else g.white_player_fid) = some (Pid.human f) →
      ∀ c, c ∈ (alookup st.playerConnections f).getD [] →
        (c, Msg.opponentDisconnected gid) ∈ (handleClose st ws).2) := by
  have hA := removeConnection_activeGames st ws
  have hPG := removeConnection_playerGames st ws
  have main := closeGameLoop_main ws.playerId gids (removeConnection st ws)
    gid g hnd hmem (by rw [hA]; exact hkeys) (by rw [hA]; exact hg)
  have hclose : handleClose st ws =
      ((closeGameLoop ws.playerId (removeConnection st ws) gids).1
          |> (fun r1 => { r1 with playerGames := aerase r1.playerGames ws.playerId }),
        (closeGameLoop ws.playerId (removeConnection st ws) gids).2) := by
    unfold handleClose
    simp only [hPG, hpg]
  constructor
  · rw [hclose]
    exact main.1
  · intro f hf hopp c hc
    rw [hclose]
    refine main.2 f hopp c ?_
    rw [removeConnection_pc_other st ws f hf]
    exact hc

/-- C4 witness: fid 1 disconnects; fid 2's connection 20 receives the
advisory and game `g1` is gone from the active store. -/
theorem disconnect_removes_games_witness :
    alookup (handleClose stHH ws1).1.activeGames "g1" = none ∧
    (20, Msg.opponentDisconnected "g1") ∈ (handleClose stHH ws1).2 :=
  ⟨(disconnect_removes_games stHH ws1 ["g1"] "g1" gameHH (by decide)
      (by decide) (by decide) (by decide) (by decide)).1,
    (disconnect_removes_games stHH ws1 ["g1"] "g1" gameHH (by decide)
      (by decide) (by decide) (by decide) (by decide)).2 2 (by decide)
      (by decide) 20 (by decide)⟩

theorem mem_participant_fanout (st : ServerState) (g : Game) (msg : Msg)
    (c : Nat) (hc : c ∈ participantConns st g) :
    (c, msg) ∈
      (if g.white_player_fid = some Pid.ai then []
        else (connsOf st g.white_player_fid).map (fun x => (x, msg))) ++
      (if g.black_player_fid = some Pid.ai then []
        else (connsOf st g.black_player_fid).map (fun x => (x, msg))) := by
  simp only [participantConns, List.mem_append] at hc
  rcases hc with hc | hc
  · by_cases hw : g.white_player_fid = some Pid.ai
    · simp [hw] at hc
    · rw [if_neg hw] at hc
      refine List.mem_append_left _ ?_
      rw [if_neg hw]
      exact List.mem_map_of_mem _ hc
  · by_cases hb : g.black_player_fid = some Pid.ai
    · simp [hb] at hc
    · rw [if_neg hb] at hc
      refine List.mem_append_right _ ?_
      rw [if_neg hb]
      exact List.mem_map_of_mem _ hc

theorem mem_broadcastMove (C : ChessOracle) (st : ServerState) (g : Game)
    (eng f t : String) (p : Option String) (c : Nat)
    (hc : c ∈ participantConns st g) :
    (c, Msg.moveMade g.id f t p g.fen (C.turnFn eng) (C.isCheckFn eng)
      (C.isCheckmateFn eng) (C.isDrawFn eng)) ∈
      broadcastMove C st g eng f t p :=
  mem_participant_fanout st g _ c hc

theorem mem_handleGameOver (C : ChessOracle) (st : ServerState) (g : Game)
    (eng : String) (c : Nat) (res : String) (win : Option String)
    (hc : c ∈ participantConns st g)
    (hres : res = (if C.isCheckmateFn eng = true then "checkmate"
      else if C.isDrawFn eng = true then "draw" else "unknown"))
    (hwin : win = (if res = "checkmate" then
      some (if C.turnFn eng = "b" then "white" else "black") else none)) :
    (c, Msg.gameOver g.id res win) ∈ (handleGameOver C st g eng).sent := by
  subst hres
  subst hwin
  exact mem_participant_fanout st g _ c hc

/-- C7: for every applied move whose resulting position is terminal, the
match is concluded: the `move_made` broadcast carrying the terminal flag is
followed (in send order) by a `game_over` to every connection of both human
participants — with result `checkmate` and winner the side that delivered
mate (the mover's color), or result `draw` with no winner — the concluded
state is persisted via `updateGameState`, and the match is removed from the
active store. -/
theorem terminal_move_concludes (C : ChessOracle) (st : ServerState)
    (ws : Conn) (d : MoveData) (db2 : Option String) (now : Nat) (g : Game)
    (eng eng' : String)
    (hkeys : (st.activeGames.map Prod.fst).Nodup)
    (hid : g.id = d.gameId)
    (hg : alookup st.activeGames d.gameId = some g)
    (he : g.game = some eng)
    (ht : C.turnFn eng =
      (if g.white_player_fid = some (Pid.human ws.playerId) then "w" else "b"))
    (htmp : C.moveFn g.fen d.fromSq d.toSq
      (if truthyS d.promotion then d.promotion else none) ≠ none)
    (hmv : C.moveFn eng d.fromSq d.toSq
      (if truthyS d.promotion then d.promotion else none) = some eng')
    (hterm : C.isGameOverFn eng' = true)
    (hwb : C.turnFn eng = "w" ∨ C.turnFn eng = "b")
    (hwb' : C.turnFn eng' = "w" ∨ C.turnFn eng' = "b")
    (hflip : C.turnFn eng' ≠ C.turnFn eng) :
    (C.isCheckmateFn eng' = true →
      (∃ bc go, (makeMoveHandler C st ws d none db2 now).sent = bc ++ go ∧
        ∀ c, c ∈ participantConns st g →
          (c, Msg.moveMade g.id d.fromSq d.toSq d.promotion eng'
            (C.turnFn eng') (C.isCheckFn eng') (C.isCheckmateFn eng')
            (C.isDrawFn eng')) ∈ bc ∧
          (c, Msg.gameOver g.id "checkmate"
            (some (if C.turnFn eng = "w" then "white" else "black"))) ∈ go) ∧
      DbCall.updateGameStateCall g.id eng' "checkmate" ∈
        (makeMoveHandler C st ws d none db2 now).db ∧
      alookup (makeMoveHandler C st ws d none db2 now).state.activeGames
        d.gameId = none) ∧
    (C.isCheckmateFn eng' = false → C.isDrawFn eng' = true →
      (∃ bc go, (makeMoveHandler C st ws d none db2 now).sent = bc ++ go ∧
        ∀ c, c ∈ participantConns st g →
          (c, Msg.moveMade g.id d.fromSq d.toSq d.promotion eng'
            (C.turnFn eng') (C.isCheckFn eng') (C.isCheckmateFn eng')
            (C.isDrawFn eng')) ∈ bc ∧
          (c, Msg.gameOver g.id "draw" none) ∈ go) ∧
      DbCall.updateGameStateCall g.id eng' "draw" ∈
        (makeMoveHandler C st ws d none db2 now).db ∧
      alookup (makeMoveHandler C st ws d none db2 now).state.activeGames
        d.gameId = none) := by
  cases hmc : C.moveFn g.fen d.fromSq d.toSq
      (if truthyS d.promotion then d.promotion else none) with
  | none => exact absurd hmc htmp
  | some v =>
  have hwinEq : (if C.turnFn eng' = "b" then "white" else "black") =
      (if C.turnFn eng = "w" then "white" else "black") := by
    rcases hwb with h | h <;> rcases hwb' with h' | h'
    · exact absurd (h'.trans h.symm) hflip
    · rw [h, h']
      decide
    · rw [h, h']
      decide
    · exact absurd (h'.trans h.symm) hflip
  have hremoved : alookup (makeMoveHandler C st ws d none db2
      now).state.activeGames d.gameId = none := by
    simp only [makeMoveHandler, hg, he, ht, ne_eq, not_true_eq_false,
      if_false, hmc, hmv, Option.getD_some, hterm, if_true, handleGameOver]
    rw [← hid]
    exact alookup_aerase_self _ _ (nodup_keys_aset _ _ _ hkeys)
  have hg2 : ∃ g2 : Game, g2 =
      { g with game := some eng', fen := eng', updated_at := now } := ⟨_, rfl⟩
  obtain ⟨g2, hg2⟩ := hg2
  have hst2 : ∃ st2 : ServerState, st2 =
      { st with activeGames := aset st.activeGames d.gameId g2 } := ⟨_, rfl⟩
  obtain ⟨st2, hst2⟩ := hst2
  constructor
  · intro hcm
    refine ⟨?_, ?_, hremoved⟩
    · refine ⟨broadcastMove C st2 g2 eng' d.fromSq d.toSq d.promotion,
        (handleGameOver C st2 g2 eng').sent, ?_, ?_⟩
      · subst hg2
        subst hst2
        simp only [makeMoveHandler, hg, he, ht, ne_eq, not_true_eq_false,
          if_false, hmc, hmv, Option.getD_some, hterm, if_true]
      · intro c hc
        subst hg2
        subst hst2
        refine ⟨mem_broadcastMove C _ _ eng' d.fromSq d.toSq d.promotion c hc,
          ?_⟩
        refine mem_handleGameOver C _ _ eng' c "checkmate" _ hc ?_ ?_
        · rw [hcm]
          simp
        · rw [hwinEq]
          simp
    · simp only [makeMoveHandler, hg, he, ht, ne_eq, not_true_eq_false,
        if_false, hmc, hmv, Option.getD_some, hterm, if_true, hcm,
        List.mem_append, List.mem_cons]
      simp
  · intro hcm hdr
    refine ⟨?_, ?_, hremoved⟩
    · refine ⟨broadcastMove C st2 g2 eng' d.fromSq d.toSq d.promotion,
        (handleGameOver C st2 g2 eng').sent, ?_, ?_⟩
      · subst hg2
        subst hst2
        simp only [makeMoveHandler, hg, he, ht, ne_eq, not_true_eq_false,
          if_false, hmc, hmv, Option.getD_some, hterm, if_true]
      · intro c hc
        subst hg2
        subst hst2
        refine ⟨mem_broadcastMove C _ _ eng' d.fromSq d.toSq d.promotion c hc,
          ?_⟩
        refine mem_handleGameOver C _ _ eng' c "draw" _ hc ?_ ?_
        · rw [hcm, hdr]
          simp
        · simp
    · simp only [makeMoveHandler, hg, he, ht, ne_eq, not_true_eq_false,
        if_false, hmc, hmv, Option.getD_some, hterm, if_true, hcm, hdr,
        List.mem_append, List.mem_cons]
      simp

/-- C7 witness: white mates with `h5→f7` in game `gM`; the `move_made`
carrying `isCheckmate` precedes the `game_over{checkmate, winner: white}`
fan-out, the concluded state is persisted, and `gM` leaves the store. -/
theorem terminal_move_concludes_witness :
    (∃ bc go, (makeMoveHandler oracleA stM ws1
        { gameId := "gM", fromSq := "h5", toSq := "f7", promotion := none }
        none none 5).sent = bc ++ go ∧
      ∀ c, c ∈ participantConns stM gameM →
        (c, Msg.moveMade gameM.id "h5" "f7" none "FENMATE"
          (oracleA.turnFn "FENMATE") (oracleA.isCheckFn "FENMATE")
          (oracleA.isCheckmateFn "FENMATE") (oracleA.isDrawFn "FENMATE")) ∈ bc ∧
        (c, Msg.gameOver gameM.id "checkmate"
          (some (if oracleA.turnFn "FENM" = "w" then "white" else "black"))) ∈
          go) ∧
    DbCall.updateGameStateCall gameM.id "FENMATE" "checkmate" ∈
      (makeMoveHandler oracleA stM ws1
        { gameId := "gM", fromSq := "h5", toSq := "f7", promotion := none }
        none none 5).db ∧
    alookup (makeMoveHandler oracleA stM ws1
        { gameId := "gM", fromSq := "h5", toSq := "f7", promotion := none }
        none none 5).state.activeGames "gM" = none :=
  (terminal_move_concludes oracleA stM ws1
    { gameId := "gM", fromSq := "h5", toSq := "f7", promotion := none }
    none 5 gameM "FENM" "FENMATE" (by decide) (by decide) (by decide)
    (by decide) (by decide) (by decide) (by decide) (by decide) (by decide)
    (by decide) (by decide)).1 (by decide)

theorem cacheConsistent_aset (st : ServerState) (k : String) (g' : Game)
    (h : cacheConsistent st)
    (hg' : ∀ eng, g'.game = some eng → g'.fen = eng) :
    cacheConsistent { st with activeGames := aset st.activeGames k g' } := by
  intro p hp eng hpe
  rcases mem_aset_elim _ _ _ _ hp with rfl | hp'
  · exact hg' eng hpe
  · exact h p hp' eng hpe

theorem cacheConsistent_aerase (st : ServerState) (k : String)
    (h : cacheConsistent st) :
    cacheConsistent { st with activeGames := aerase st.activeGames k } := by
  intro p hp eng hpe
  exact h p (mem_aerase_elim _ _ _ hp) eng hpe

/-- C10: the cache-coherence invariant — every active game's cached `fen`
equals the FEN of its live chess.js instance — is preserved by the three
handlers that mutate a match: applying a human move, applying an
automated-opponent move, and resetting the game. -/
theorem cache_invariant_preserved :
    (∀ (C : ChessOracle) (st : ServerState) (ws : Conn) (d : MoveData)
      (db1 db2 : Option String) (now : Nat), cacheConsistent st →
      cacheConsistent (makeMoveHandler C st ws d db1 db2 now).state) ∧
    (∀ (C : ChessOracle) (st : ServerState) (gid : String)
      (mv : Option AiMoveData) (now : Nat), cacheConsistent st →
      cacheConsistent (triggerAiMove C st gid mv now).state) ∧
    (∀ (st : ServerState) (ws : Conn) (gid : String) (dbs : Option String)
      (now : Nat), cacheConsistent st →
      cacheConsistent (resetGameHandler st ws gid dbs now).state) := by
  refine ⟨?_, ?_, ?_⟩
  · intro C st ws d db1 db2 now hcc
    cases hlg : alookup st.activeGames d.gameId with
    | none =>
      simpa [makeMoveHandler, hlg] using hcc
    | some g =>
    cases hge : g.game with
    | none =>
      simpa [makeMoveHandler, hlg, hge] using hcc
    | some eng =>
    by_cases ht : C.turnFn eng ≠
        (if g.white_player_fid = some (Pid.human ws.playerId) then "w" else "b")
    · simpa [makeMoveHandler, hlg, hge, if_pos ht] using hcc
    · push_neg at ht
      cases hm : C.moveFn g.fen d.fromSq d.toSq
          (if truthyS d.promotion then d.promotion else none) with
      | none =>
        simpa [makeMoveHandler, hlg, hge, ht, hm] using hcc
      | some v =>
      have hok : ∀ eng2, (({ g with
          game := some ((C.moveFn eng d.fromSq d.toSq
            (if truthyS d.promotion then d.promotion else none)).getD eng),
          fen := (C.moveFn eng d.fromSq d.toSq
            (if truthyS d.promotion then d.promotion else none)).getD eng,
          updated_at := now } : Game).game = some eng2) →
          ((C.moveFn eng d.fromSq d.toSq
            (if truthyS d.promotion then d.promotion else none)).getD eng)
            = eng2 := by
        intro eng2 hh
        injection hh
      cases db1 with
      | some e =>
        simp only [makeMoveHandler, hlg, hge, ht, ne_eq, not_true_eq_false,
          if_false, hm]
        exact cacheConsistent_aset _ _ _ hcc hok
      | none =>
        by_cases hov : C.isGameOverFn ((C.moveFn eng d.fromSq d.toSq
            (if truthyS d.promotion then d.promotion else none)).getD eng)
            = true
        · simp only [makeMoveHandler, hlg, hge, ht, ne_eq, not_true_eq_false,
            if_false, hm, hov, if_true, handleGameOver]
          exact cacheConsistent_aerase _ _
            (cacheConsistent_aset _ _ _ hcc hok)
        · simp only [makeMoveHandler, hlg, hge, ht, ne_eq, not_true_eq_false,
            if_false, hm, hov, Bool.false_eq_true]
          exact cacheConsistent_aset _ _ _ hcc hok
  · intro C st gid mv now hcc
    cases hlg : alookup st.activeGames gid with
    | none =>
      simpa [triggerAiMove, hlg] using hcc
    | some g =>
    cases hge : g.game with
    | none =>
      simpa [triggerAiMove, hlg, hge] using hcc
    | some eng =>
    by_cases ht : C.turnFn eng ≠
        (if g.white_player_fid = some Pid.ai then "w" else "b")
    · simpa [triggerAiMove, hlg, hge, if_pos ht] using hcc
    · push_neg at ht
      cases mv with
      | none =>
        simpa [triggerAiMove, hlg, hge, ht] using hcc
      | some mvd =>
      by_cases htr : (!(truthyS mvd.fromSq) || !(truthyS mvd.toSq)) = true
      · simpa [triggerAiMove, hlg, hge, ht, htr] using hcc
      · cases hm : C.moveFn eng (mvd.fromSq.getD "") (mvd.toSq.getD "")
            (if truthyS mvd.promotion then mvd.promotion else none) with
        | none =>
          simpa [triggerAiMove, hlg, hge, ht, htr, hm] using hcc
        | some eng' =>
        have hok : ∀ eng2, (({ g with
            game := some eng', fen := eng', updated_at := now } : Game).game
            = some eng2) → eng' = eng2 := by
          intro eng2 hh
          injection hh
        by_cases hov : C.isGameOverFn eng' = true
        · simp only [triggerAiMove, hlg, hge, ht, ne_eq, not_true_eq_false,
            if_false, htr, Bool.false_eq_true, hm, hov, if_true,
            handleGameOver]
          exact cacheConsistent_aerase _ _
            (cacheConsistent_aset _ _ _ hcc hok)
        · simp only [triggerAiMove, hlg, hge, ht, ne_eq, not_true_eq_false,
            if_false, htr, Bool.false_eq_true, hm, hov]
          exact cacheConsistent_aset _ _ _ hcc hok
  · intro st ws gid dbs now hcc
    cases hlg : alookup st.activeGames gid with
    | none =>
      simpa [resetGameHandler, hlg] using hcc
    | some g =>
    cases hge : g.game with
    | none =>
      simpa [resetGameHandler, hlg, hge] using hcc
    | some eng =>
      simp only [resetGameHandler, hlg, hge]
      refine cacheConsistent_aset _ _ _ hcc ?_
      intro eng2 hh
      injection hh

/-- C10 witness: the invariant holds of the fixture state and is preserved
across black's applied move, an AI-move attempt, and a reset. -/
theorem cache_invariant_preserved_witness :
    cacheConsistent (makeMoveHandler oracleA stHH ws2
      { gameId := "g1", fromSq := "e7", toSq := "e5", promotion := none }
      none none 5).state ∧
    cacheConsistent (triggerAiMove oracleA stHH "g1" none 5).state ∧
    cacheConsistent (resetGameHandler stHH ws1 "g1" none 5).state := by
  have hcc : cacheConsistent stHH := by
    intro p hp eng hpe
    simp only [stHH, List.mem_cons, List.not_mem_nil, or_false] at hp
    subst hp
    simp only [gameHH, Option.some.injEq] at hpe
    subst hpe
    rfl
  exact ⟨cache_invariant_preserved.1 oracleA stHH ws2
      { gameId := "g1", fromSq := "e7", toSq := "e5", promotion := none }
      none none 5 hcc,
    cache_invariant_preserved.2.1 oracleA stHH "g1" none 5 hcc,
    cache_invariant_preserved.2.2 stHH ws1 "g1" none 5 hcc⟩

end FarcasterChess
